import Mathlib

/-!
Verification of the numerical core of the FlightPathAnalysis plotter
(src/src/frontend/plotter.py).

The plotting pipeline is embedded shallowly:

* machine floats are modelled by exact rationals; a NaN produced by the
  source (numpy propagates NaN instead of raising on 0.0/0.0) is modelled
  by the value none of an Option type;
* numpy array primitives (linspace, interp, mod, mean, median, average,
  std, percentile, min, max) are translated to list functions with the
  documented numpy semantics;
* shapely geometry (Point(x, y).buffer(1), affinity.scale, unary_union)
  is given its ideal mathematical semantics: the unit-radius buffer is the
  closed unit disk, scale is the anisotropic affine map about the given
  origin, and unary_union is set union.

Each definition carries a comment pointing at the python lines it embeds.
-/

/-- Embeds numpy.linspace(a, b, num=M) (plotter.py lines 149, 203, 288,
323, 373, 429, 528): M evenly spaced points from a to b inclusive. -/
def linspace (a b : ℚ) (M : Nat) : List ℚ :=
  (List.range M).map (fun i : Nat => a + (b - a) * (i : ℚ) / ((M : ℚ) - 1))

/-- Embeds numpy.interp(x, xp, fp) for strictly increasing xp, the points
given as a list of (xp, fp) pairs (plotter.py lines 150, 204, 289, 375,
431, 530): clamp to the first and last value outside the knot range,
piecewise linear inside. -/
def npInterp (x : ℚ) : List (ℚ × ℚ) → ℚ
  | [] => 0
  | [p] => p.2
  | p :: q :: rest =>
    if x ≤ p.1 then p.2
    else if x ≤ q.1 then p.2 + (q.2 - p.2) * (x - p.1) / (q.1 - p.1)
    else npInterp x (q :: rest)

/-- Embeds numpy.mod(v, 360) on rationals (plotter.py lines 152, 206,
291): the representative of v modulo 360 lying in [0, 360). -/
def mod360 (v : ℚ) : ℚ := v - 360 * (⌊v / 360⌋ : ℚ)

/-- Embeds the test quantity in ("lon", "heading") of plotter.py lines
151, 205, 290: the quantities the source treats as circular. -/
def circularQuantity (q : String) : Bool := q = "lon" || q = "heading"

/-- Embeds the resampling step shared by plot_quantity, plot_quantity_multi
and plot_quantity_shaded (plotter.py lines 148-152, 202-206, 287-291): the
trajectory tr is a list of (time, value) samples; the grid is
numpy.linspace over the first and last raw time, the values are
numpy.interp onto that grid, and for a circular run the interpolated
values are reduced mod 360 afterwards. -/
def resample (circ : Bool) (tr : List (ℚ × ℚ)) (M : Nat) : List ℚ × List ℚ :=
  let times := tr.map Prod.fst
  let grid := linspace (times.headD 0) (times.getLastD 0) M
  let vals := grid.map (fun x => npInterp x tr)
  (grid, if circ then vals.map mod360 else vals)

/-- Embeds the quantity-dispatching form of the resampling step: the mod
360 reduction is applied exactly when the quantity is in ("lon",
"heading") (plotter.py lines 148-152). -/
def resampleQuantity (q : String) (tr : List (ℚ × ℚ)) (M : Nat) : List ℚ × List ℚ :=
  resample (circularQuantity q) tr M

/-- Embeds the interpolation loop of plot_route (plotter.py lines
369-378): lat and lon are each numpy.interp-olated onto the linspace grid
over the raw times, with no modular reduction, and the plotted points
pair lon with lat. -/
def plot_route_points (times lats lons : List ℚ) (M : Nat) : List (ℚ × ℚ) :=
  let grid := linspace (times.headD 0) (times.getLastD 0) M
  grid.map (fun x => (npInterp x (times.zip lons), npInterp x (times.zip lats)))

/-- Embeds the column mask of plot_quantity_multi and plot_quantity_shaded
(plotter.py lines 210-211, 295-296): with NaN modelled as none, the kept
grid indices are those j < M at which no trajectory row holds a NaN.
This embeds mask = not numpy.any(numpy.isnan(ys), axis=0). -/
def keptCols (ys : List (List (Option ℚ))) (M : Nat) : List Nat :=
  (List.range M).filter (fun j => ys.all (fun row => (row.getD j none).isSome))

/-- Embeds ys = ys[:, mask] of plotter.py lines 210-211 and 295-296: every
trajectory row is restricted to the kept grid indices. -/
def maskCols (ys : List (List (Option ℚ))) (M : Nat) : List (List (Option ℚ)) :=
  ys.map (fun row => (keptCols ys M).map (fun j => row.getD j none))

/-- Embeds the mask of plot_multiple_routes and plot_multiple_routes_shaded
(plotter.py lines 435-436, 535-536): mask = not numpy.any(numpy.isnan(ys),
axis=(1, 2)); ys = ys[mask]. The reduction runs over the coordinate axis
and the grid axis, so a whole trajectory (a 2 x M block) is kept exactly
when it holds no NaN anywhere; grid columns are never removed. -/
def maskTrajRoute (ys : List (List (List (Option ℚ)))) : List (List (List (Option ℚ))) :=
  ys.filter (fun traj => traj.all (fun coord => coord.all (fun v => v.isSome)))

/-- Embeds numpy.mean of a 1-d array (plotter.py lines 300-301, 440):
sum divided by length. -/
def npMean (xs : List ℚ) : ℚ := xs.sum / xs.length

/-- Embeds numpy.average of a 1-d array called with no weights argument
(plotter.py lines 308-309, 446): numpy uses the all-ones weight vector,
sum of 1 * x over the sum of the ones. -/
def npAverageNoW (xs : List ℚ) : ℚ :=
  (xs.map (fun x => 1 * x)).sum / (List.replicate xs.length (1 : ℚ)).sum

/-- Insertion of one element into an ascending list; helper for the sort
underlying numpy.percentile and numpy.median. -/
def insertSorted (x : ℚ) : List ℚ → List ℚ
  | [] => [x]
  | y :: ys => if x ≤ y then x :: y :: ys else y :: insertSorted x ys

/-- Ascending insertion sort over rationals; embeds the internal sort of
numpy.percentile and of sorted(...) on the deviation levels. -/
def sortQ (xs : List ℚ) : List ℚ := xs.foldr insertSorted []

/-- Embeds numpy.percentile(xs, q) with the default linear interpolation
(plotter.py lines 319, 558-559): on the ascending ordering of xs, the
value at fractional rank q / 100 * (n - 1). -/
def npPercentile (xs : List ℚ) (q : ℚ) : ℚ :=
  let s := sortQ xs
  if s.length = 0 then 0
  else
    let rank : ℚ := q / 100 * ((s.length : ℚ) - 1)
    let lo : Nat := Int.toNat ⌊rank⌋
    let frac : ℚ := rank - (lo : ℚ)
    let a := s.getD lo 0
    let b := s.getD (lo + 1) a
    a + frac * (b - a)

/-- Embeds numpy.median of a 1-d array (plotter.py lines 304-305, 442):
numpy computes the midpoint of the middle order statistics, which equals
the 50th percentile under linear interpolation. -/
def npMedian (xs : List ℚ) : ℚ := npPercentile xs 50

/-- Embeds the variance under numpy.std with the default ddof=0
(plotter.py lines 316, 554-555): the mean of the squared deviations from
the mean, i.e. the population variance. -/
def popVar (xs : List ℚ) : ℚ :=
  ((xs.map (fun x => (x - npMean xs) ^ 2)).sum) / xs.length

/-- Embeds numpy.std with the default ddof=0 (plotter.py lines 316,
554-555): the square root of the population variance, as a real. -/
noncomputable def npStdDev (xs : List ℚ) : ℝ := Real.sqrt ((popVar xs : ℚ) : ℝ)

/-- Embeds the column extraction implicit in the axis=0 reductions of
plotter.py lines 300-319: column j of the N x M row-major stack ys. -/
def columnsOf (ys : List (List ℚ)) (M : Nat) : List (List ℚ) :=
  (List.range M).map (fun j => ys.map (fun row => row.getD j 0))

/-- The failure modes of the plotting core:

* keyError embeds the pandas KeyError raised by the column selection
  df[[time-column, quantity]] when the quantity column is absent;
* quantityNotFound embeds raise ValueError("Quantity ... not found in
  state vector file.") (plotter.py lines 147, 201, 286);
* expectationNotRecognized embeds raise ValueError("Expectation Measure
  not recognized: ...") (plotter.py lines 311, 448, 548);
* deviationNotRecognized embeds raise ValueError("Deviation Measure not
  recognized: ...") (plotter.py lines 321, 561). -/
inductive PlotErr
  | keyError
  | quantityNotFound
  | expectationNotRecognized
  | deviationNotRecognized
deriving DecidableEq, Repr

/-- Embeds the pandas column selection df[[c1, ..., ck]] applied to a
decoded frame (plotter.py lines 145, 199, 284): a frame is a list of
(column name, column values) pairs; selecting raises KeyError as soon as
any requested column is absent, otherwise it returns the requested
columns. -/
def dfSelect (df : List (String × List ℚ)) (cols : List String) :
    Except PlotErr (List (String × List ℚ)) :=
  if cols.all (fun c => df.any (fun p => p.1 = c)) then
    Except.ok (cols.filterMap (fun c => df.find? (fun p => p.1 = c)))
  else
    Except.error PlotErr.keyError

/-- Embeds the fetch-and-check step of plot_quantity and
plot_quantity_multi (plotter.py lines 145-147, 199-201): first the pandas
selection df[[time-column, quantity]], then the guard
if quantity not in df.columns: raise ValueError(...), evaluated on the
already selected sub-frame. -/
def plot_quantity_fetch (df : List (String × List ℚ)) (q : String) :
    Except PlotErr (List (String × List ℚ)) :=
  match dfSelect df (["time", q]) with
  | Except.error e => Except.error e
  | Except.ok sub =>
    if sub.any (fun p => p.1 = q) then Except.ok sub
    else Except.error PlotErr.quantityNotFound

/-- Embeds the expectation-measure dispatch of plot_quantity_shaded
(plotter.py lines 298-311): on the masked stack ys (N rows, M kept
columns) and the list of per-flight durations, the selector string picks
numpy.mean, numpy.median or numpy.average (called with no weights) along
axis 0 together with the matching reduction of the durations into the
final time t_final; any other string raises. -/
def expectationStep (mode : String) (ys : List (List ℚ)) (M : Nat) (totalTs : List ℚ) :
    Except PlotErr (List ℚ × ℚ) :=
  if mode = "mean" then
    Except.ok ((columnsOf ys M).map npMean, npMean totalTs)
  else if mode = "median" then
    Except.ok ((columnsOf ys M).map npMedian, npMedian totalTs)
  else if mode = "average" then
    Except.ok ((columnsOf ys M).map npAverageNoW, npAverageNoW totalTs)
  else
    Except.error PlotErr.expectationNotRecognized

/-- Embeds the expectation-measure dispatch of plot_multiple_routes and
plot_multiple_routes_shaded (plotter.py lines 438-448, 538-548): the
stack ys is N x C x M (C = 2 coordinates) and the reduction runs along
the trajectory axis, entrywise in (coordinate, grid index). -/
def expectationRoute (mode : String) (ys : List (List (List ℚ))) (C M : Nat) :
    Except PlotErr (List (List ℚ)) :=
  if mode = "mean" then
    Except.ok ((List.range C).map (fun c =>
      (List.range M).map (fun j => npMean (ys.map (fun t => (t.getD c []).getD j 0)))))
  else if mode = "median" then
    Except.ok ((List.range C).map (fun c =>
      (List.range M).map (fun j => npMedian (ys.map (fun t => (t.getD c []).getD j 0)))))
  else if mode = "average" then
    Except.ok ((List.range C).map (fun c =>
      (List.range M).map (fun j => npAverageNoW (ys.map (fun t => (t.getD c []).getD j 0)))))
  else
    Except.error PlotErr.expectationNotRecognized

/-- Embeds the deviation-measure dispatch of plot_quantity_shaded
(plotter.py lines 313-321): the levels are sorted descending; mode "std"
yields level times the axis-0 population standard deviation per column,
mode "pct" yields half the distance between the symmetric percentiles
50 + L/2 and 50 - L/2 per column, and any other string raises. -/
noncomputable def dispersionStep (mode : String) (levels : List ℚ) (ys : List (List ℚ)) (M : Nat) :
    Except PlotErr (List (List ℝ)) :=
  if mode = "std" then
    Except.ok ((sortQ levels).reverse.map (fun L : ℚ =>
      (columnsOf ys M).map (fun c => (L : ℝ) * npStdDev c)))
  else if mode = "pct" then
    Except.ok ((sortQ levels).reverse.map (fun L : ℚ =>
      (columnsOf ys M).map (fun c =>
        (((npPercentile c (50 + L / 2) - npPercentile c (50 - L / 2)) / 2 : ℚ) : ℝ))))
  else
    Except.error PlotErr.deviationNotRecognized

/-- Embeds numpy.min of a nonempty 1-d array (plotter.py line 219);
the value 0 on the empty list stands for the error numpy raises there. -/
def npMinL (xs : List ℚ) : ℚ :=
  match xs with
  | [] => 0
  | x :: rest => rest.foldl min x

/-- Embeds numpy.max of a nonempty 1-d array (plotter.py line 218). -/
def npMaxL (xs : List ℚ) : ℚ :=
  match xs with
  | [] => 0
  | x :: rest => rest.foldl max x

/-- Embeds the density normalization of plot_quantity_multi and
plot_multiple_routes (plotter.py lines 218-220, 450-455): given the
kernel density values over the pooled cloud, return
(d - d_min) / (d_max - d_min) per point. The source has no guard: when
d_max equals d_min every entry is the float division 0.0/0.0, which numpy
evaluates to NaN, i.e. no real-valued weight is produced; that outcome is
modelled as none. -/
def densityNormalize (ds : List ℚ) : Option (List ℚ) :=
  let dmin := npMinL ds
  let dmax := npMaxL ds
  if dmax - dmin = 0 then none
  else some (ds.map (fun d => (d - dmin) / (dmax - dmin)))

/-- Embeds shapely.affinity.scale(geom, xfact, yfact, origin=o)
(plotter.py line 492) as the pointwise anisotropic affine map about o. -/
def scaleAbout (o : ℚ × ℚ) (f : ℚ × ℚ) (p : ℚ × ℚ) : ℚ × ℚ :=
  (o.1 + f.1 * (p.1 - o.1), o.2 + f.2 * (p.2 - o.2))

/-- Embeds Point(c).buffer(1) (plotter.py line 491) as the ideal closed
unit disk centered at c. -/
def unitDisk (c : ℚ × ℚ) : Set (ℚ × ℚ) :=
  setOf (fun p => (p.1 - c.1) ^ 2 + (p.2 - c.2) ^ 2 ≤ 1)

/-- Embeds generate_confidence_region (plotter.py lines 489-495): for
each index i below the length of the means arrays, the unit disk centered
at (means_x[i], means_y[i]) is scaled by (sigma_x[i], sigma_y[i]) about
that same center, and the results are merged by unary_union, i.e. set
union. -/
def generate_confidence_region (mx my sx sy : List ℚ) : Set (ℚ × ℚ) :=
  ⋃ i ∈ Finset.range mx.length,
    Set.image (scaleAbout (mx.getD i 0, my.getD i 0) (sx.getD i 0, sy.getD i 0))
      (unitDisk (mx.getD i 0, my.getD i 0))

/-! Helper lemmas about the numpy primitives. -/

theorem headD_eq_getD (l : List ℚ) (d : ℚ) : l.headD d = l.getD 0 d := by
  cases l <;> rfl

theorem getLastD_eq_getD (l : List ℚ) (d : ℚ) : l.getLastD d = l.getD (l.length - 1) d := by
  rw [List.getLastD_eq_getLast?, List.getLast?_eq_getElem?, List.getD_eq_getElem?_getD]

theorem foldl_min_le_acc (l : List ℚ) (a : ℚ) : l.foldl min a ≤ a := by
  induction l generalizing a with
  | nil => exact le_refl a
  | cons b l ih =>
    rw [List.foldl_cons]
    exact le_trans (ih (min a b)) (min_le_left a b)

theorem foldl_min_le_mem (l : List ℚ) (a y : ℚ) (hy : y ∈ l) : l.foldl min a ≤ y := by
  induction l generalizing a with
  | nil => cases hy
  | cons b l ih =>
    rw [List.foldl_cons]
    rcases List.mem_cons.mp hy with rfl | h
    · exact le_trans (foldl_min_le_acc l (min a y)) (min_le_right a y)
    · exact ih (min a b) h

theorem acc_le_foldl_max (l : List ℚ) (a : ℚ) : a ≤ l.foldl max a := by
  induction l generalizing a with
  | nil => exact le_refl a
  | cons b l ih =>
    rw [List.foldl_cons]
    exact le_trans (le_max_left a b) (ih (max a b))

theorem mem_le_foldl_max (l : List ℚ) (a y : ℚ) (hy : y ∈ l) : y ≤ l.foldl max a := by
  induction l generalizing a with
  | nil => cases hy
  | cons b l ih =>
    rw [List.foldl_cons]
    rcases List.mem_cons.mp hy with rfl | h
    · exact le_trans (le_max_right a y) (acc_le_foldl_max l (max a y))
    · exact ih (max a b) h

theorem npMinL_le_mem (xs : List ℚ) (y : ℚ) (hy : y ∈ xs) : npMinL xs ≤ y := by
  cases xs with
  | nil => cases hy
  | cons x rest =>
    rcases List.mem_cons.mp hy with rfl | h
    · exact foldl_min_le_acc rest y
    · exact foldl_min_le_mem rest x y h

theorem mem_le_npMaxL (xs : List ℚ) (y : ℚ) (hy : y ∈ xs) : y ≤ npMaxL xs := by
  cases xs with
  | nil => cases hy
  | cons x rest =>
    rcases List.mem_cons.mp hy with rfl | h
    · exact acc_le_foldl_max rest y
    · exact mem_le_foldl_max rest x y h

theorem linspace_length (a b : ℚ) (M : Nat) : (linspace a b M).length = M := by
  unfold linspace
  rw [List.length_map, List.length_range]

theorem linspace_getElem (a b : ℚ) (M i : Nat) (hi : i < (linspace a b M).length) :
    (linspace a b M)[i] = a + (b - a) * i / ((M : ℚ) - 1) := by
  unfold linspace
  rw [List.getElem_map, List.getElem_range]

theorem linspace_getD (a b : ℚ) (M i : Nat) (hi : i < M) :
    (linspace a b M).getD i 0 = a + (b - a) * i / ((M : ℚ) - 1) := by
  rw [List.getD_eq_getElem (linspace a b M) 0 (by simpa [linspace_length] using hi)]
  exact linspace_getElem a b M i _

theorem linspace_headD (a b : ℚ) (M : Nat) (hM : 1 ≤ M) :
    (linspace a b M).headD 0 = a := by
  rw [headD_eq_getD, linspace_getD a b M 0 (by omega)]
  norm_num

theorem linspace_getLastD (a b : ℚ) (M : Nat) (hM : 2 ≤ M) :
    (linspace a b M).getLastD 0 = b := by
  rw [getLastD_eq_getD, linspace_length,
    linspace_getD a b M (M - 1) (by omega)]
  have hM1 : ((M - 1 : Nat) : ℚ) = (M : ℚ) - 1 := by
    push_cast [Nat.cast_sub (by omega : 1 ≤ M)]; ring
  have hne : (M : ℚ) - 1 ≠ 0 := by
    have : (2 : ℚ) ≤ (M : ℚ) := by exact_mod_cast hM
    intro hcon; rw [sub_eq_zero] at hcon; rw [hcon] at this; norm_num at this
  rw [hM1, mul_div_assoc, div_self hne]
  ring

theorem linspace_pairwise (a b : ℚ) (M : Nat) (hab : a < b) :
    List.Pairwise (· < ·) (linspace a b M) := by
  rw [List.pairwise_iff_getElem]
  intro i j hi hj hij
  rw [linspace_getElem a b M i hi, linspace_getElem a b M j hj]
  have hM : 2 ≤ M := by
    have := hj; rw [linspace_length] at this; omega
  have hden : (0 : ℚ) < (M : ℚ) - 1 := by
    have : (2 : ℚ) ≤ (M : ℚ) := by exact_mod_cast hM
    linarith
  have hnum : (0 : ℚ) < b - a := by linarith
  have hcast : (i : ℚ) < (j : ℚ) := by exact_mod_cast hij
  have key : (b - a) * (i : ℚ) < (b - a) * (j : ℚ) := by nlinarith
  have hdiv : (b - a) * (i : ℚ) / ((M : ℚ) - 1) < (b - a) * (j : ℚ) / ((M : ℚ) - 1) := by
    gcongr
  linarith

theorem mod360_nonneg_lt (v : ℚ) : 0 ≤ mod360 v ∧ mod360 v < 360 := by
  unfold mod360
  have h1 : (⌊v / 360⌋ : ℚ) ≤ v / 360 := Int.floor_le (v / 360)
  have h2 : v / 360 < (⌊v / 360⌋ : ℚ) + 1 := Int.lt_floor_add_one (v / 360)
  constructor <;> nlinarith [h1, h2]

theorem mod360_idem (v : ℚ) : mod360 (mod360 v) = mod360 v := by
  have h := mod360_nonneg_lt v
  have hfloor : ⌊mod360 v / 360⌋ = 0 := by
    rw [Int.floor_eq_zero_iff]
    constructor
    · exact div_nonneg h.1 (by norm_num)
    · rw [div_lt_one (by norm_num)]; exact h.2
  show mod360 v - 360 * (⌊mod360 v / 360⌋ : ℚ) = mod360 v
  rw [hfloor]
  norm_num

theorem npInterp_knot (pts : List (ℚ × ℚ))
    (hp : List.Pairwise (fun p q : ℚ × ℚ => p.1 < q.1) pts) :
    ∀ p ∈ pts, npInterp p.1 pts = p.2 := by
  induction pts with
  | nil => intro p hmem; cases hmem
  | cons p0 tail ih =>
    cases tail with
    | nil =>
      intro p hmem
      rcases List.mem_cons.mp hmem with rfl | h
      · rfl
      · cases h
    | cons p1 rest =>
      intro p hmem
      rcases List.pairwise_cons.mp hp with ⟨h0, hp1⟩
      rcases List.mem_cons.mp hmem with rfl | hmem1
      · show npInterp p.1 (p :: p1 :: rest) = p.2
        unfold npInterp
        rw [if_pos (le_refl p.1)]
      · have h0p : p0.1 < p.1 := h0 p hmem1
        show npInterp p.1 (p0 :: p1 :: rest) = p.2
        unfold npInterp
        rw [if_neg (by linarith)]
        rcases List.mem_cons.mp hmem1 with rfl | hmem2
        · rw [if_pos (le_refl p.1)]
          have hne : p.1 - p0.1 ≠ 0 := by
            intro hcon; rw [sub_eq_zero] at hcon; rw [hcon] at h0p; exact lt_irrefl _ h0p
          field_simp
        · have h1p : p1.1 < p.1 := by
            rcases List.pairwise_cons.mp hp1 with ⟨h1, _⟩
            exact h1 p hmem2
          rw [if_neg (by linarith)]
          exact ih hp1 p hmem1

theorem npAverageNoW_eq_npMean (xs : List ℚ) : npAverageNoW xs = npMean xs := by
  unfold npAverageNoW npMean
  rw [List.sum_replicate]
  congr 1
  · congr 1
    simp [one_mul]
  · rw [nsmul_eq_mul, mul_one]

theorem head_lt_getLast_of_pairwise (t : List ℚ) (hlen : 2 ≤ t.length)
    (hp : List.Pairwise (· < ·) t) : t.headD 0 < t.getLastD 0 := by
  rw [headD_eq_getD, getLastD_eq_getD]
  rw [List.getD_eq_getElem t 0 (by omega), List.getD_eq_getElem t 0 (by omega)]
  exact List.pairwise_iff_getElem.mp hp 0 (t.length - 1) (by omega) (by omega) (by omega)

theorem scaleAbout_disk_mem (c s p : ℚ × ℚ) (hs1 : s.1 ≠ 0) (hs2 : s.2 ≠ 0) :
    p ∈ Set.image (scaleAbout c s) (unitDisk c) ↔
      ((p.1 - c.1) / s.1) ^ 2 + ((p.2 - c.2) / s.2) ^ 2 ≤ 1 := by
  constructor
  · rintro ⟨q, hq, rfl⟩
    have e1 : (scaleAbout c s q).1 - c.1 = s.1 * (q.1 - c.1) := by
      unfold scaleAbout; ring
    have e2 : (scaleAbout c s q).2 - c.2 = s.2 * (q.2 - c.2) := by
      unfold scaleAbout; ring
    rw [e1, e2, mul_div_cancel_left₀ _ hs1, mul_div_cancel_left₀ _ hs2]
    exact hq
  · intro h
    refine ⟨(c.1 + (p.1 - c.1) / s.1, c.2 + (p.2 - c.2) / s.2), ?_, ?_⟩
    · show (c.1 + (p.1 - c.1) / s.1 - c.1) ^ 2 + (c.2 + (p.2 - c.2) / s.2 - c.2) ^ 2 ≤ 1
      have e1 : c.1 + (p.1 - c.1) / s.1 - c.1 = (p.1 - c.1) / s.1 := by ring
      have e2 : c.2 + (p.2 - c.2) / s.2 - c.2 = (p.2 - c.2) / s.2 := by ring
      rw [e1, e2]; exact h
    · show (c.1 + s.1 * (c.1 + (p.1 - c.1) / s.1 - c.1), c.2 + s.2 * (c.2 + (p.2 - c.2) / s.2 - c.2)) = p
      have e1 : c.1 + s.1 * (c.1 + (p.1 - c.1) / s.1 - c.1) = p.1 := by
        field_simp; ring
      have e2 : c.2 + s.2 * (c.2 + (p.2 - c.2) / s.2 - c.2) = p.2 := by
        field_simp; ring
      rw [e1, e2]

/-! Claim theorems. -/

/-- Claim C1, amended: over a pooled cloud whose kernel density values do
not all coincide, the normalization (d - d_min) / (d_max - d_min) of
plot_quantity_multi and plot_multiple_routes (plotter.py lines 218-220,
450-455) produces one weight per point and every weight lies in [0, 1].
The degenerate case d_max = d_min is settled by
density_weights_degenerate_cex: the source has no fallback and divides by
zero there, producing NaN weights rather than a constant in [0, 1]. -/
theorem density_weights_normalized (ds : List ℚ) (hne : ds ≠ [])
    (hd : npMinL ds ≠ npMaxL ds) :
    densityNormalize ds =
      some (ds.map (fun d => (d - npMinL ds) / (npMaxL ds - npMinL ds))) ∧
    ∀ w ∈ ds.map (fun d => (d - npMinL ds) / (npMaxL ds - npMinL ds)),
      0 ≤ w ∧ w ≤ 1 := by
  obtain ⟨d0, hd0⟩ := List.exists_mem_of_ne_nil ds hne
  have hle : npMinL ds ≤ npMaxL ds :=
    le_trans (npMinL_le_mem ds d0 hd0) (mem_le_npMaxL ds d0 hd0)
  have hlt : npMinL ds < npMaxL ds := lt_of_le_of_ne hle hd
  have hpos : 0 < npMaxL ds - npMinL ds := by linarith
  constructor
  · simp only [densityNormalize]
    rw [if_neg (by linarith)]
  · intro w hw
    rcases List.mem_map.mp hw with ⟨d, hdmem, rfl⟩
    have h1 : npMinL ds ≤ d := npMinL_le_mem ds d hdmem
    have h2 : d ≤ npMaxL ds := mem_le_npMaxL ds d hdmem
    constructor
    · exact div_nonneg (by linarith) (le_of_lt hpos)
    · rw [div_le_one hpos]
      linarith

/-- Witness for density_weights_normalized at the cloud [1, 3]. -/
theorem density_weights_normalized_witness :
    (([1, 3] : List ℚ) ≠ []) ∧ (npMinL [1, 3] ≠ npMaxL [1, 3]) ∧
    (densityNormalize [1, 3] =
        some (([1, 3] : List ℚ).map
          (fun d => (d - npMinL [1, 3]) / (npMaxL [1, 3] - npMinL [1, 3]))) ∧
      ∀ w ∈ ([1, 3] : List ℚ).map
          (fun d => (d - npMinL [1, 3]) / (npMaxL [1, 3] - npMinL [1, 3])),
        0 ≤ w ∧ w ≤ 1) :=
  ⟨by simp, by norm_num [npMinL, npMaxL],
    density_weights_normalized [1, 3] (by simp) (by norm_num [npMinL, npMaxL])⟩

/-- Claim C1, counterexample: over the cloud of three identical density
values (the pooled kernel density of a cloud of identical points is
constant) the normalization of plotter.py lines 218-220 divides by zero
and produces no real-valued weights; there is no documented degenerate
fallback returning a constant in [0, 1]. -/
theorem density_weights_degenerate_cex : densityNormalize [1, 1, 1] = none := by
  norm_num [densityNormalize, npMinL, npMaxL]

/-- Claim C2, amended: in the quantity-stack functions plot_quantity_multi
and plot_quantity_shaded (plotter.py lines 210-211, 295-296), a grid index
at which any trajectory row holds a NaN is excluded from the kept column
list; the masked stack restricts every trajectory row to exactly the kept
columns, and every kept column is NaN-free in every row. The route
functions behave differently: see route_stack_mask_cex. -/
theorem quantity_stack_drops_nan_columns (ys : List (List (Option ℚ))) (M k : Nat)
    (row : List (Option ℚ)) (hrow : row ∈ ys) (hnan : row.getD k none = none) :
    k ∉ keptCols ys M ∧
    maskCols ys M = ys.map (fun r => (keptCols ys M).map (fun j => r.getD j none)) ∧
    ∀ j ∈ keptCols ys M, ∀ r ∈ ys, (r.getD j none).isSome = true := by
  refine ⟨?_, rfl, ?_⟩
  · intro hk
    rcases List.mem_filter.mp hk with ⟨-, hall⟩
    have hsome := List.all_eq_true.mp hall row hrow
    rw [hnan] at hsome
    exact Bool.false_ne_true hsome
  · intro j hj r hr
    rcases List.mem_filter.mp hj with ⟨-, hall⟩
    exact List.all_eq_true.mp hall r hr

/-- Witness for quantity_stack_drops_nan_columns: the stack has a NaN in
row 0 at grid index 0, so column 0 is dropped for both trajectories. -/
theorem quantity_stack_drops_nan_columns_witness :
    (([none, some 1] : List (Option ℚ)) ∈
      ([[none, some 1], [some 2, some 3]] : List (List (Option ℚ)))) ∧
    (([none, some 1] : List (Option ℚ)).getD 0 none = none) ∧
    (0 ∉ keptCols ([[none, some 1], [some 2, some 3]] : List (List (Option ℚ))) 2 ∧
      maskCols ([[none, some 1], [some 2, some 3]] : List (List (Option ℚ))) 2 =
        ([[none, some 1], [some 2, some 3]] : List (List (Option ℚ))).map
          (fun r => (keptCols ([[none, some 1], [some 2, some 3]] :
            List (List (Option ℚ))) 2).map (fun j => r.getD j none)) ∧
      ∀ j ∈ keptCols ([[none, some 1], [some 2, some 3]] : List (List (Option ℚ))) 2,
        ∀ r ∈ ([[none, some 1], [some 2, some 3]] : List (List (Option ℚ))),
          (r.getD j none).isSome = true) :=
  ⟨by simp, rfl,
    quantity_stack_drops_nan_columns
      ([[none, some 1], [some 2, some 3]] : List (List (Option ℚ))) 2 0
      ([none, some 1] : List (Option ℚ)) (by simp) rfl⟩

/-- Claim C2, counterexample: in plot_multiple_routes (plotter.py lines
435-436) the stack is masked along axis=(1, 2), dropping whole
trajectories. Trajectory 0 has a NaN at grid index 0, yet the masked
stack retains grid column 0 for the remaining trajectory (its entry there
is some 2): the column is not dropped for all trajectories as the claim
states; the trajectory containing the NaN is removed instead. -/
theorem route_stack_mask_cex :
    maskTrajRoute ([[[none, some 1], [some 0, some 0]],
        [[some 2, some 3], [some 4, some 5]]] : List (List (List (Option ℚ)))) =
      ([[[some 2, some 3], [some 4, some 5]]] : List (List (List (Option ℚ)))) ∧
    ((((maskTrajRoute ([[[none, some 1], [some 0, some 0]],
        [[some 2, some 3], [some 4, some 5]]] : List (List (List (Option ℚ))))).getD
          0 []).getD 0 []).getD 0 none) = some 2 := by
  constructor <;> rfl

/-- Claim C3, amended: in the quantity plotting functions (plot_quantity,
plot_quantity_multi, plot_quantity_shaded, plotter.py lines 148-152,
202-206, 287-291) a circular quantity is first linearly interpolated onto
the target grid and the interpolated values are then reduced mod 360, so
the returned values lie in [0, 360); the two closed conjuncts show the
order matters: reducing before interpolating the raw pair (0, 540) gives
90 at the midpoint where the source computes 270. The route functions
apply no reduction at all: see route_lon_unreduced_cex. -/
theorem circular_mod_after_interp (q : String) (tr : List (ℚ × ℚ)) (M : Nat)
    (hq : circularQuantity q = true) :
    (resampleQuantity q tr M).2 =
      ((resampleQuantity q tr M).1.map (fun x => npInterp x tr)).map mod360 ∧
    (∀ v ∈ (resampleQuantity q tr M).2, 0 ≤ v ∧ v < 360) ∧
    mod360 (npInterp (1 / 2) [(0, 0), (1, 540)]) = 270 ∧
    npInterp (1 / 2) [(0, mod360 0), (1, mod360 540)] = 90 := by
  have hres : resampleQuantity q tr M =
      (linspace ((tr.map Prod.fst).headD 0) ((tr.map Prod.fst).getLastD 0) M,
       ((linspace ((tr.map Prod.fst).headD 0) ((tr.map Prod.fst).getLastD 0) M).map
         (fun x => npInterp x tr)).map mod360) := by
    unfold resampleQuantity resample
    rw [hq]
    rfl
  refine ⟨?_, ?_, ?_, ?_⟩
  · rw [hres]
  · rw [hres]
    intro v hv
    rcases List.mem_map.mp hv with ⟨u, -, rfl⟩
    exact mod360_nonneg_lt u
  · norm_num [npInterp, mod360]
  · norm_num [npInterp, mod360]

/-- Witness for circular_mod_after_interp at the quantity "lon" and the
trajectory [(0, 0), (1, 540)] resampled to 3 points. -/
theorem circular_mod_after_interp_witness :
    circularQuantity ("lon") = true ∧
    ((resampleQuantity ("lon") [(0, 0), (1, 540)] 3).2 =
      ((resampleQuantity ("lon") [(0, 0), (1, 540)] 3).1.map
        (fun x => npInterp x [(0, 0), (1, 540)])).map mod360 ∧
    (∀ v ∈ (resampleQuantity ("lon") [(0, 0), (1, 540)] 3).2, 0 ≤ v ∧ v < 360) ∧
    mod360 (npInterp (1 / 2) [(0, 0), (1, 540)]) = 270 ∧
    npInterp (1 / 2) [(0, mod360 0), (1, mod360 540)] = 90) :=
  ⟨by decide, circular_mod_after_interp ("lon") [(0, 0), (1, 540)] 3 (by decide)⟩

/-- Claim C3, counterexample: plot_route (plotter.py lines 369-378)
interpolates the circular quantity lon with no modulo-360 reduction; on
the trajectory with times [0, 1] and lon values [-10, -10] the plotted
lon values are -10, which does not lie in [0, 360). -/
theorem route_lon_unreduced_cex :
    plot_route_points [0, 1] [5, 5] [-10, -10] 2 = [(-10, 5), (-10, 5)] ∧
    ((-10 : ℚ) < 0) := by
  constructor
  · norm_num [plot_route_points, linspace, npInterp, List.range_succ]
  · norm_num

/-- Claim C4 (code bug): when the requested quantity is absent from the
decoded frame, the pandas selection df[[time-column, quantity]]
(plotter.py lines 145, 199) raises KeyError before the guard
if quantity not in df.columns: raise ValueError(...) on lines 146-147 and
200-201 can run; the first conjunct evaluates the failing input, and the
second shows the ValueError branch (the error the docstrings and the
claim promise) is unreachable for every frame and quantity. -/
theorem missing_quantity_raises_keyerror :
    plot_quantity_fetch [("time", [0, 1]), ("lat", [1, 2])] ("velocity") =
      Except.error PlotErr.keyError ∧
    ∀ (df : List (String × List ℚ)) (q : String),
      plot_quantity_fetch df q = Except.error PlotErr.keyError ∨
      ∃ r, plot_quantity_fetch df q = Except.ok r := by
  constructor
  · rfl
  · intro df q
    unfold plot_quantity_fetch dfSelect
    by_cases hall : (["time", q]).all (fun c => df.any (fun p => p.1 = c)) = true
    · rw [if_pos hall]
      right
      have hq : ∃ p ∈ df, p.1 = q := by
        have hmem := List.all_eq_true.mp hall q (by simp)
        rcases List.any_eq_true.mp hmem with ⟨p, hp, hpq⟩
        exact ⟨p, hp, of_decide_eq_true hpq⟩
      rcases hq with ⟨p, hp, hpq⟩
      have hfind : (df.find? (fun r => r.1 = q)).isSome :=
        List.find?_isSome.mpr ⟨p, hp, decide_eq_true hpq⟩
      rcases Option.isSome_iff_exists.mp hfind with ⟨pr, hpr⟩
      have hpr1 : pr.1 = q := by
        have hfs := List.find?_some hpr
        exact of_decide_eq_true hfs
      have hmemsub : pr ∈ (["time", q]).filterMap (fun c => df.find? (fun r => r.1 = c)) :=
        List.mem_filterMap.mpr ⟨q, by simp, hpr⟩
      have hany : ((["time", q]).filterMap (fun c => df.find? (fun r => r.1 = c))).any
          (fun r => r.1 = q) = true :=
        List.any_eq_true.mpr ⟨pr, hmemsub, decide_eq_true hpr1⟩
      refine ⟨(["time", q]).filterMap (fun c => df.find? (fun r => r.1 = c)), ?_⟩
      show (if ((["time", q]).filterMap (fun c => df.find? (fun r => r.1 = c))).any
          (fun r => r.1 = q) = true then
            Except.ok ((["time", q]).filterMap (fun c => df.find? (fun r => r.1 = c)))
          else Except.error PlotErr.quantityNotFound) =
        Except.ok ((["time", q]).filterMap (fun c => df.find? (fun r => r.1 = c)))
      rw [if_pos hany]
    · rw [if_neg hall]
      left
      rfl

/-- Claim C5: the deviation-measure dispatch of plot_quantity_shaded
(plotter.py lines 313-321) computes, for a level L, in mode std the value
L times the per-column population standard deviation, and in mode pct
half the difference of the per-column percentiles 50 + L/2 and 50 - L/2;
in particular mode std at level 1.0 over the stack [[1, 2, 3], [3, 4, 5]]
yields dispersion [1, 1, 1] (population standard deviation, numpy default
ddof=0), and mode pct at level 50 yields [1/2, 1/2, 1/2] there. -/
theorem dispersion_measure_formulas (L : ℚ) (ys : List (List ℚ)) (M : Nat) :
    dispersionStep ("std") [L] ys M =
      Except.ok [(columnsOf ys M).map (fun c => (L : ℝ) * Real.sqrt ((popVar c : ℚ) : ℝ))] ∧
    dispersionStep ("pct") [L] ys M =
      Except.ok [(columnsOf ys M).map (fun c =>
        (((npPercentile c (50 + L / 2) - npPercentile c (50 - L / 2)) / 2 : ℚ) : ℝ))] ∧
    dispersionStep ("std") [1] [[1, 2, 3], [3, 4, 5]] 3 = Except.ok [[1, 1, 1]] ∧
    dispersionStep ("pct") [50] [[1, 2, 3], [3, 4, 5]] 3 =
      Except.ok [[1 / 2, 1 / 2, 1 / 2]] := by
  refine ⟨?_, ?_, ?_, ?_⟩
  · unfold dispersionStep npStdDev
    rw [if_pos rfl]
    rfl
  · unfold dispersionStep
    rw [if_neg (by decide), if_pos rfl]
    rfl
  · unfold dispersionStep
    rw [if_pos rfl]
    have hcols : columnsOf [[1, 2, 3], [3, 4, 5]] 3 = [[(1 : ℚ), 3], [2, 4], [3, 5]] := by
      norm_num [columnsOf, List.range_succ]
    have hvar1 : popVar [(1 : ℚ), 3] = 1 := by norm_num [popVar, npMean]
    have hvar2 : popVar [(2 : ℚ), 4] = 1 := by norm_num [popVar, npMean]
    have hvar3 : popVar [(3 : ℚ), 5] = 1 := by norm_num [popVar, npMean]
    have hsort : (sortQ [(1 : ℚ)]).reverse = [1] := rfl
    rw [hsort, hcols]
    norm_num [npStdDev, hvar1, hvar2, hvar3, Real.sqrt_one]
  · unfold dispersionStep
    rw [if_neg (by decide), if_pos rfl]
    have hcols : columnsOf [[1, 2, 3], [3, 4, 5]] 3 = [[(1 : ℚ), 3], [2, 4], [3, 5]] := by
      norm_num [columnsOf, List.range_succ]
    have hsort : (sortQ [(50 : ℚ)]).reverse = [50] := rfl
    rw [hsort, hcols]
    have hp1 : npPercentile [(1 : ℚ), 3] 75 = 5 / 2 := by
      norm_num [npPercentile, sortQ, insertSorted]
    have hp2 : npPercentile [(1 : ℚ), 3] 25 = 3 / 2 := by
      norm_num [npPercentile, sortQ, insertSorted]
    have hp3 : npPercentile [(2 : ℚ), 4] 75 = 7 / 2 := by
      norm_num [npPercentile, sortQ, insertSorted]
    have hp4 : npPercentile [(2 : ℚ), 4] 25 = 5 / 2 := by
      norm_num [npPercentile, sortQ, insertSorted]
    have hp5 : npPercentile [(3 : ℚ), 5] 75 = 9 / 2 := by
      norm_num [npPercentile, sortQ, insertSorted]
    have hp6 : npPercentile [(3 : ℚ), 5] 25 = 7 / 2 := by
      norm_num [npPercentile, sortQ, insertSorted]
    norm_num [hp1, hp2, hp3, hp4, hp5, hp6]

/-- Claim C8: the expectation-measure dispatch (plotter.py lines 298-311)
errors with the unrecognized-expectation ValueError exactly when the
selector string is none of mean, median, average, and returns a result
otherwise; the deviation-measure dispatch (plotter.py lines 313-321)
errors with the unrecognized-deviation ValueError exactly when the mode
string is neither std nor pct, and returns a result otherwise. -/
theorem unsupported_measure_errors (em dm : String) (levels : List ℚ)
    (ys : List (List ℚ)) (M : Nat) (totalTs : List ℚ) :
    ((expectationStep em ys M totalTs = Except.error PlotErr.expectationNotRecognized) ↔
      ¬(em = "mean" ∨ em = "median" ∨ em = "average")) ∧
    ((∃ r, expectationStep em ys M totalTs = Except.ok r) ↔
      (em = "mean" ∨ em = "median" ∨ em = "average")) ∧
    ((dispersionStep dm levels ys M = Except.error PlotErr.deviationNotRecognized) ↔
      ¬(dm = "std" ∨ dm = "pct")) ∧
    ((∃ r, dispersionStep dm levels ys M = Except.ok r) ↔ (dm = "std" ∨ dm = "pct")) := by
  unfold expectationStep dispersionStep
  refine ⟨?_, ?_, ?_, ?_⟩ <;> split_ifs <;> simp_all

/-- Claim C10: the selectors mean and average agree: numpy.average called
with no weights is the all-ones weighted average, which coincides with
numpy.mean, so plot_quantity_shaded (plotter.py lines 298-311) produces
the same expectation path and the same final time-axis value t_final
under both selectors, and the route expectation of plot_multiple_routes
(plotter.py lines 438-448) likewise coincides. -/
theorem mean_average_agree (ys : List (List ℚ)) (M : Nat) (totalTs : List ℚ)
    (r : List (List (List ℚ))) (C M2 : Nat) :
    expectationStep ("mean") ys M totalTs = expectationStep ("average") ys M totalTs ∧
    expectationRoute ("mean") r C M2 = expectationRoute ("average") r C M2 := by
  have hfun : npAverageNoW = npMean := funext npAverageNoW_eq_npMean
  constructor
  · unfold expectationStep
    rw [if_pos rfl, if_neg (by decide), if_neg (by decide), if_pos rfl, hfun]
  · unfold expectationRoute
    rw [if_pos rfl, if_neg (by decide), if_neg (by decide), if_pos rfl, hfun]

/-- Claim C6: resampling a trajectory with at least 2 samples to M >= 2
points (plotter.py lines 149-150) yields a grid of exactly M time values
(exact rationals, hence finite) whose first entry is the first raw time,
whose last entry is the last raw time, and whose consecutive entries all
differ by the constant step (t_last - t_first) / (M - 1); the returned
quantity values are numpy.interp of the raw series evaluated at exactly
those M grid points (composed with the mod-360 reduction when the run is
circular). -/
theorem resample_grid_spec (circ : Bool) (tr : List (ℚ × ℚ)) (M : Nat)
    (hlen : 2 ≤ tr.length) (hM : 2 ≤ M) :
    (resample circ tr M).1.length = M ∧
    (resample circ tr M).1.getD 0 0 = (tr.map Prod.fst).headD 0 ∧
    (resample circ tr M).1.getD (M - 1) 0 = (tr.map Prod.fst).getLastD 0 ∧
    (∀ i : Nat, i + 1 < M →
      (resample circ tr M).1.getD (i + 1) 0 - (resample circ tr M).1.getD i 0 =
        ((tr.map Prod.fst).getLastD 0 - (tr.map Prod.fst).headD 0) / ((M : ℚ) - 1)) ∧
    (resample circ tr M).2 =
      (if circ then ((resample circ tr M).1.map (fun x => npInterp x tr)).map mod360
       else (resample circ tr M).1.map (fun x => npInterp x tr)) := by
  have h1 : (resample circ tr M).1 =
      linspace ((tr.map Prod.fst).headD 0) ((tr.map Prod.fst).getLastD 0) M := rfl
  have hne : (M : ℚ) - 1 ≠ 0 := by
    have h2M : (2 : ℚ) ≤ (M : ℚ) := by exact_mod_cast hM
    intro hcon
    rw [sub_eq_zero] at hcon
    rw [hcon] at h2M
    norm_num at h2M
  refine ⟨?_, ?_, ?_, ?_, ?_⟩
  · rw [h1]; exact linspace_length _ _ M
  · rw [h1, linspace_getD _ _ M 0 (by omega)]; norm_num
  · have hlast := linspace_getLastD ((tr.map Prod.fst).headD 0)
      ((tr.map Prod.fst).getLastD 0) M hM
    rw [getLastD_eq_getD, linspace_length] at hlast
    rw [h1]; exact hlast
  · intro i hi
    rw [h1, linspace_getD _ _ M (i + 1) (by omega), linspace_getD _ _ M i (by omega)]
    push_cast
    field_simp
    ring
  · cases circ <;> rfl

/-- Witness for resample_grid_spec at the trajectory [(0, 10), (4, 30)]
resampled to 3 points. -/
theorem resample_grid_spec_witness :
    2 ≤ ([((0 : ℚ), (10 : ℚ)), (4, 30)] : List (ℚ × ℚ)).length ∧ 2 ≤ 3 ∧
    ((resample false [((0 : ℚ), (10 : ℚ)), (4, 30)] 3).1.length = 3 ∧
      (resample false [((0 : ℚ), (10 : ℚ)), (4, 30)] 3).1.getD 0 0 =
        (([((0 : ℚ), (10 : ℚ)), (4, 30)] : List (ℚ × ℚ)).map Prod.fst).headD 0 ∧
      (resample false [((0 : ℚ), (10 : ℚ)), (4, 30)] 3).1.getD (3 - 1) 0 =
        (([((0 : ℚ), (10 : ℚ)), (4, 30)] : List (ℚ × ℚ)).map Prod.fst).getLastD 0 ∧
      (∀ i : Nat, i + 1 < 3 →
        (resample false [((0 : ℚ), (10 : ℚ)), (4, 30)] 3).1.getD (i + 1) 0 -
            (resample false [((0 : ℚ), (10 : ℚ)), (4, 30)] 3).1.getD i 0 =
          ((([((0 : ℚ), (10 : ℚ)), (4, 30)] : List (ℚ × ℚ)).map Prod.fst).getLastD 0 -
              (([((0 : ℚ), (10 : ℚ)), (4, 30)] : List (ℚ × ℚ)).map Prod.fst).headD 0) /
            ((3 : ℚ) - 1)) ∧
      (resample false [((0 : ℚ), (10 : ℚ)), (4, 30)] 3).2 =
        (if false then
          ((resample false [((0 : ℚ), (10 : ℚ)), (4, 30)] 3).1.map
            (fun x => npInterp x [((0 : ℚ), (10 : ℚ)), (4, 30)])).map mod360
         else (resample false [((0 : ℚ), (10 : ℚ)), (4, 30)] 3).1.map
          (fun x => npInterp x [((0 : ℚ), (10 : ℚ)), (4, 30)]))) :=
  ⟨by norm_num, by norm_num,
    resample_grid_spec false [((0 : ℚ), (10 : ℚ)), (4, 30)] 3 (by norm_num) (by norm_num)⟩

/-- Claim C9: generate_confidence_region (plotter.py lines 489-495)
equals, whenever every deviation is nonzero, the union over i of the
ellipses centered at (means_x[i], means_y[i]) with semi-axes
(sigma_x[i], sigma_y[i]): scaling the unit disk about its own center
preserves that center, and unary_union merges the per-point ellipses into
one region (possibly disconnected). -/
theorem confidence_region_union_of_ellipses (mx my sx sy : List ℚ)
    (h : ∀ i, i < mx.length → sx.getD i 0 ≠ 0 ∧ sy.getD i 0 ≠ 0) :
    generate_confidence_region mx my sx sy =
      setOf (fun p : ℚ × ℚ => ∃ i, i < mx.length ∧
        ((p.1 - mx.getD i 0) / sx.getD i 0) ^ 2 +
          ((p.2 - my.getD i 0) / sy.getD i 0) ^ 2 ≤ 1) := by
  ext p
  unfold generate_confidence_region
  simp only [Set.mem_iUnion, Finset.mem_range, Set.mem_setOf_eq]
  constructor
  · rintro ⟨i, hi, hmem⟩
    exact ⟨i, hi, (scaleAbout_disk_mem (mx.getD i 0, my.getD i 0)
      (sx.getD i 0, sy.getD i 0) p (h i hi).1 (h i hi).2).mp hmem⟩
  · rintro ⟨i, hi, hineq⟩
    exact ⟨i, hi, (scaleAbout_disk_mem (mx.getD i 0, my.getD i 0)
      (sx.getD i 0, sy.getD i 0) p (h i hi).1 (h i hi).2).mpr hineq⟩

/-- Witness for confidence_region_union_of_ellipses at a single center
(0, 0) with deviations (2, 3). -/
theorem confidence_region_union_of_ellipses_witness :
    (∀ i, i < ([(0 : ℚ)] : List ℚ).length →
      ([(2 : ℚ)] : List ℚ).getD i 0 ≠ 0 ∧ ([(3 : ℚ)] : List ℚ).getD i 0 ≠ 0) ∧
    generate_confidence_region [(0 : ℚ)] [(0 : ℚ)] [(2 : ℚ)] [(3 : ℚ)] =
      setOf (fun p : ℚ × ℚ => ∃ i, i < ([(0 : ℚ)] : List ℚ).length ∧
        ((p.1 - ([(0 : ℚ)] : List ℚ).getD i 0) / ([(2 : ℚ)] : List ℚ).getD i 0) ^ 2 +
          ((p.2 - ([(0 : ℚ)] : List ℚ).getD i 0) / ([(3 : ℚ)] : List ℚ).getD i 0) ^ 2 ≤ 1) :=
  ⟨by decide, confidence_region_union_of_ellipses [(0 : ℚ)] [(0 : ℚ)] [(2 : ℚ)] [(3 : ℚ)]
    (by decide)⟩

/-- Claim C7: resampling is idempotent on its own output. For a
trajectory with strictly increasing times, at least 2 samples, and a
target count M >= 2, resampling the resampled series again (plotter.py
lines 149-152) recomputes the same linspace grid (its first and last
entries are the previous first and last grid times) and interpolation at
the knots of a strictly increasing series reproduces its values exactly;
the mod-360 reduction of a circular run is idempotent as well. -/
theorem resample_idempotent (circ : Bool) (tr : List (ℚ × ℚ)) (M : Nat)
    (hM : 2 ≤ M) (hlen : 2 ≤ tr.length)
    (hmono : List.Pairwise (fun p q : ℚ × ℚ => p.1 < q.1) tr) :
    resample circ ((resample circ tr M).1.zip (resample circ tr M).2) M =
      resample circ tr M := by
  have hab : (tr.map Prod.fst).headD 0 < (tr.map Prod.fst).getLastD 0 := by
    apply head_lt_getLast_of_pairwise
    · simpa using hlen
    · exact List.pairwise_map.mpr hmono
  have hg1 : (resample circ tr M).1 =
      linspace ((tr.map Prod.fst).headD 0) ((tr.map Prod.fst).getLastD 0) M := rfl
  have hvlen : (resample circ tr M).2.length = M := by
    cases circ <;> simp [resample, linspace_length]
  set a := (tr.map Prod.fst).headD 0 with ha
  set b := (tr.map Prod.fst).getLastD 0 with hb
  set g := linspace a b M with hgdef
  set v := (resample circ tr M).2 with hvdef
  have hglen : g.length = M := linspace_length a b M
  have hzipfst : (g.zip v).map Prod.fst = g :=
    List.map_fst_zip g v (by rw [hvlen, hglen])
  have hpairg : List.Pairwise (· < ·) g := linspace_pairwise a b M hab
  have hpairzip : List.Pairwise (fun p q : ℚ × ℚ => p.1 < q.1) (g.zip v) := by
    rw [← hzipfst] at hpairg
    exact List.pairwise_map.mp hpairg
  have hheadzip : ((g.zip v).map Prod.fst).headD 0 = a := by
    rw [hzipfst, hgdef]
    exact linspace_headD a b M (by omega)
  have hlastzip : ((g.zip v).map Prod.fst).getLastD 0 = b := by
    rw [hzipfst, hgdef]
    exact linspace_getLastD a b M hM
  have hziplen : (g.zip v).length = M := by
    rw [List.length_zip, hglen, hvlen, Nat.min_self]
  have hvals2 : g.map (fun x => npInterp x (g.zip v)) = v := by
    apply List.ext_getElem
    · rw [List.length_map, hglen, hvlen]
    · intro i h1 h2
      have hiM : i < M := by rw [List.length_map, hglen] at h1; exact h1
      rw [List.getElem_map]
      have hgi : i < g.length := by rw [hglen]; exact hiM
      have hvi : i < v.length := by rw [hvlen]; exact hiM
      have hzi : i < (g.zip v).length := by rw [hziplen]; exact hiM
      have hz : (g.zip v)[i] = (g[i], v[i]) := List.getElem_zip
      have hmem : (g[i], v[i]) ∈ g.zip v := by
        rw [← hz]; exact List.getElem_mem hzi
      have hk := npInterp_knot (g.zip v) hpairzip (g[i], v[i]) hmem
      simpa using hk
  have hgrid2 : linspace (((g.zip v).map Prod.fst).headD 0)
      (((g.zip v).map Prod.fst).getLastD 0) M = g := by
    rw [hheadzip, hlastzip, hgdef]
  have hfst2 : (resample circ (g.zip v) M).1 = g := by
    show linspace (((g.zip v).map Prod.fst).headD 0)
      (((g.zip v).map Prod.fst).getLastD 0) M = g
    exact hgrid2
  have hsnd2 : (resample circ (g.zip v) M).2 = v := by
    cases circ with
    | false =>
      show (linspace (((g.zip v).map Prod.fst).headD 0)
        (((g.zip v).map Prod.fst).getLastD 0) M).map (fun x => npInterp x (g.zip v)) = v
      rw [hgrid2, hvals2]
    | true =>
      show ((linspace (((g.zip v).map Prod.fst).headD 0)
        (((g.zip v).map Prod.fst).getLastD 0) M).map
          (fun x => npInterp x (g.zip v))).map mod360 = v
      rw [hgrid2, hvals2, hvdef]
      show (((linspace a b M).map (fun x => npInterp x tr)).map mod360).map mod360 =
        ((linspace a b M).map (fun x => npInterp x tr)).map mod360
      rw [List.map_map]
      exact List.map_congr_left (fun x _ => mod360_idem x)
  rw [hg1]
  apply Prod.ext_iff.mpr
  constructor
  · rw [hfst2, hg1]
  · rw [hsnd2, hvdef]

/-- Witness for resample_idempotent at the trajectory [(0, 10), (4, 30)]
resampled twice to 2 points. -/
theorem resample_idempotent_witness :
    2 ≤ 2 ∧ 2 ≤ ([((0 : ℚ), (10 : ℚ)), (4, 30)] : List (ℚ × ℚ)).length ∧
    List.Pairwise (fun p q : ℚ × ℚ => p.1 < q.1)
      ([((0 : ℚ), (10 : ℚ)), (4, 30)] : List (ℚ × ℚ)) ∧
    resample false ((resample false [((0 : ℚ), (10 : ℚ)), (4, 30)] 2).1.zip
        (resample false [((0 : ℚ), (10 : ℚ)), (4, 30)] 2).2) 2 =
      resample false [((0 : ℚ), (10 : ℚ)), (4, 30)] 2 :=
  ⟨by norm_num, by norm_num, by decide,
    resample_idempotent false [((0 : ℚ), (10 : ℚ)), (4, 30)] 2 (by norm_num) (by norm_num)
      (by decide)⟩
